import Mathlib

/-!
Shallow embedding of `src/gift_upgrader.py` (the scan-decide-upgrade engine).

Conventions of the embedding:
* Python exceptions are modelled by `Except PyErr` / `Option`; a function
  that can raise returns `Except PyErr α`, and `Option Int` is used where the
  only observable is "an int or a raise".
* A Python float is modelled discretely: either finite (carrying the integer
  that `int()` truncation yields) or non-finite (`nan` / `inf`), on which
  `int()` raises.
* A Python decimal string `s` is modelled by the outcome of `int(float(s))`:
  `some n` when that conversion succeeds, `none` when `float(s)` fails or
  yields a non-finite value (so `int` raises).  The parser itself belongs to
  the Python runtime, not to this repository.
* Remote (Telethon) calls are modelled by an environment assigning a result
  to each request shape.  TL-object construction is total, with one
  exception: `InputInvoiceStarGiftUpgrade(stargift, keep_original_details)`
  — Telethon's generated constructors have explicit signatures, so a layer
  lacking the parameter raises `TypeError` at construction; the environment
  records that layer capability (`invoiceFlagOk`).  The source builds this
  invoice outside its `try` (lines 294-297).  `FloodWaitError` is a
  subclass of `RPCError`, so `except RPCError` also catches it.
-/

namespace GiftUpgrader

/-- Discrete model of a Python float as seen by `int()`: a finite float is
represented by its truncation, `nan` and `inf` make `int()` raise. -/
inductive PyFloat where
  | finite (trunc : Int)
  | nan
  | inf
deriving DecidableEq, Repr

/-- Result of `int(f)` on a Python float: raises (`none`) on non-finite. -/
def intOfFloat : PyFloat → Option Int
  | PyFloat.finite t => some t
  | PyFloat.nan => Option.none
  | PyFloat.inf => Option.none

/-- Model of a Python dict as probed by `as_int_stars`' `to_dict` branch:
for each of the keys `amount`/`value`/`units`, outer `none` means the key is
absent, `some none` means the key is present but `int(d[k])` raises, and
`some (some n)` means `int(d[k]) == n`. -/
structure PyDict where
  amount : Option (Option Int)
  value : Option (Option Int)
  units : Option (Option Int)
deriving DecidableEq, Repr

/-- Model of a structured amount object: for each attribute
`amount`/`value`/`units`, outer `none` means the attribute is missing or is
`None`, `some none` means `int(v)` raises, `some (some n)` means
`int(v) == n`; `to_dict` is the dict returned by a callable `to_dict` when
present; `int_conv` is the outcome of the final `int(x)` fallback. -/
structure PyObj where
  amount : Option (Option Int)
  value : Option (Option Int)
  units : Option (Option Int)
  to_dict : Option PyDict
  int_conv : Option Int
deriving DecidableEq, Repr

/-- The input universe of `as_int_stars`: `None`, int, float, decimal
string (represented by the outcome of `int(float(s))`), or a structured
amount object. -/
inductive PyVal where
  | pyNone
  | int (n : Int)
  | float (f : PyFloat)
  | str (conv : Option Int)
  | obj (o : PyObj)
deriving DecidableEq, Repr

/-- One probe of the attr/dict loops: succeeds only when the slot is present
(and not `None`) and `int()` converts; otherwise the loop `pass`es on. -/
def tryAttr : Option (Option Int) → Option Int
  | some (some n) => some n
  | _ => Option.none

/-- The `to_dict` branch of `as_int_stars`: try keys `amount`, `value`,
`units` in order. -/
def dictStars (d : PyDict) : Option Int :=
  (tryAttr d.amount).orElse fun _ =>
    (tryAttr d.value).orElse fun _ => tryAttr d.units

/-- The object branch of `as_int_stars` (never raises): attributes
`amount`/`value`/`units` in order, then `to_dict`, then `int(x)`, else 0. -/
def objStars (o : PyObj) : Int :=
  (((tryAttr o.amount).orElse fun _ =>
    (tryAttr o.value).orElse fun _ =>
      (tryAttr o.units).orElse fun _ =>
        (o.to_dict.bind dictStars).orElse fun _ => o.int_conv)).getD 0

/-- `as_int_stars` from the source: returns `some n` when Python returns
`n`, `none` when the Python call raises (only possible for a non-finite
float, where `int(x)` raises outside any handler). -/
def as_int_stars : PyVal → Option Int
  | PyVal.pyNone => some 0
  | PyVal.int n => some n
  | PyVal.float f => intOfFloat f
  | PyVal.str conv => some (conv.getD 0)
  | PyVal.obj o => some (objStars o)

/-- Python exceptions relevant to the engine.  `floodWait` is Telethon's
`FloodWaitError`, a subclass of `RPCError`. -/
inductive PyErr where
  | typeError
  | rpcError (msg : String)
  | floodWait (seconds : Nat)
  | runtimeError (msg : String)
  | valueError
  | osError
deriving DecidableEq, Repr

/-- `except RPCError` in the source also catches `FloodWaitError`
(subclassing). -/
def isRPCError : PyErr → Bool
  | PyErr.rpcError _ => true
  | PyErr.floodWait _ => true
  | _ => false

/-- `str(e)` on a caught exception, as embedded in audit events. -/
def errMsg : PyErr → String
  | PyErr.typeError => "TypeError"
  | PyErr.rpcError m => m
  | PyErr.floodWait s => "FloodWait " ++ toString s
  | PyErr.runtimeError m => m
  | PyErr.valueError => "ValueError"
  | PyErr.osError => "OSError"

/-- Inner gift descriptor (`saved.gift`): `upgrade_stars` is `none` when the
attribute is absent (the source then falls back to the outer value). -/
structure GiftInner where
  upgrade_stars : Option PyVal
deriving DecidableEq, Repr

/-- A saved gift as consumed by the engine.  `upgrade_stars` uses the
`getattr` default `0` for a missing attribute (represented by `.int 0`);
`prepaid_upgrade_hash` and `can_upgrade` are the truthiness of the
corresponding attributes; `msg_id` / `saved_id` are `none` when absent
(`0` is also falsy in the source's `if` tests). -/
structure SavedGift where
  upgrade_stars : PyVal
  gift : Option GiftInner
  prepaid_upgrade_hash : Bool
  can_upgrade : Bool
  msg_id : Option Nat
  saved_id : Option Nat
deriving DecidableEq, Repr

/-- `Upgrader._gift_need_and_flags`: `none` models a raise from
`as_int_stars` (non-finite float amount). -/
def gift_need_and_flags (s : SavedGift) : Option (Int × Bool × Bool) :=
  match as_int_stars s.upgrade_stars with
  | Option.none => Option.none
  | some need0 =>
    let inner : Option Int :=
      match s.gift with
      | Option.none => some need0
      | some sg =>
        match sg.upgrade_stars with
        | Option.none => as_int_stars (PyVal.int need0)
        | some v => as_int_stars v
    match inner with
    | Option.none => Option.none
    | some need => some (need, s.prepaid_upgrade_hash, s.can_upgrade)

/-- Python truthiness of an optional numeric id (`0` is falsy). -/
def truthyId : Option Nat → Bool
  | Option.none => false
  | some n => n != 0

/-- The `InputSavedStarGift*` TL object built by `_gift_keys`. -/
inductive InputSavedStarGift where
  | chat (peer : String) (saved_id : Nat)
  | user (msg_id : Nat)
deriving DecidableEq, Repr

/-- `Upgrader._gift_keys`: slot-based addressing wins when present,
message-based otherwise; neither present models the `RuntimeError`
(`none`).  Returns `(gift_key, input object, key_type)`. -/
def gift_keys (s : SavedGift) (peer : String) :
    Option (String × InputSavedStarGift × String) :=
  if truthyId s.saved_id then
    some ("chat_saved:" ++ toString (s.saved_id.getD 0),
      InputSavedStarGift.chat peer (s.saved_id.getD 0), "chat_saved")
  else if truthyId s.msg_id then
    some ("user_msg:" ++ toString (s.msg_id.getD 0),
      InputSavedStarGift.user (s.msg_id.getD 0), "user_msg")
  else Option.none

/-- `state_key` from the source. -/
def state_key (peer_id gift_key : String) : String :=
  peer_id ++ ":" ++ gift_key

/-- The dedup store keyed by `state_key`; only membership is observed. -/
def already_upgraded (st : List String) (peer_id gift_key : String) : Bool :=
  st.contains (state_key peer_id gift_key)

/-- `mark_upgraded`: inserts the record (timestamp value not modelled). -/
def mark_upgraded (st : List String) (peer_id gift_key : String) :
    List String :=
  state_key peer_id gift_key :: st

/-- A remote mutating call issued by the executor.  The `Bool` on the first
two records whether the `keep_original_details` parameter was included in
the request. -/
inductive RemoteCall where
  | upgradeStarGift (withParam : Bool)
  | getPaymentForm (withParam : Bool)
  | sendStarsForm (form_id : Nat)
deriving DecidableEq, Repr

/-- Responses of the remote service, per request shape.  The `Bool`
argument says whether the `keep_original_details` parameter was included;
`TypeError` on a `true` call models the layer rejecting the parameter.
`invoiceFlagOk` is the TL-layer capability for the *paid* path: whether
`InputInvoiceStarGiftUpgrade` accepts `keep_original_details` — when it
does not, constructing the flag-carrying invoice itself raises
`TypeError` (and the source constructs it outside the `try`). -/
structure RemoteEnv where
  upgradeRes : Bool → Except PyErr Unit
  invoiceFlagOk : Bool
  payformRes : Bool → Except PyErr Nat
  sendRes : Nat → Except PyErr Unit

/-- `Upgrader._upgrade_prepaid`: call `UpgradeStarGiftRequest` with the
flag; on `TypeError` retry once without it; anything else propagates.
Returns the result together with the calls issued. -/
def upgrade_prepaid (env : RemoteEnv) (_keep : Bool) :
    Except PyErr Unit × List RemoteCall :=
  match env.upgradeRes true with
  | Except.error PyErr.typeError =>
    (env.upgradeRes false,
      [RemoteCall.upgradeStarGift true, RemoteCall.upgradeStarGift false])
  | r => (r, [RemoteCall.upgradeStarGift true])

/-- `Upgrader._upgrade_paid` (lines 290-308): the flag-carrying invoice
`InputInvoiceStarGiftUpgrade(stargift, keep_original_details)` is built at
lines 294-297, *outside* the `try` — on a layer whose constructor rejects
the parameter (`invoiceFlagOk = false`) that `TypeError` propagates with
no retry and no remote call.  Otherwise `GetPaymentFormRequest` is issued
on that invoice; a `TypeError` raised by this call is caught, the invoice
is rebuilt without the flag and the form requested once more; then
`SendStarsFormRequest` is issued with the returned `form_id`; any failure
propagates. -/
def upgrade_paid (env : RemoteEnv) (_need : Int) (_keep : Bool) :
    Except PyErr Unit × List RemoteCall :=
  if env.invoiceFlagOk then
    match env.payformRes true with
    | Except.ok fid =>
      (env.sendRes fid,
        [RemoteCall.getPaymentForm true, RemoteCall.sendStarsForm fid])
    | Except.error PyErr.typeError =>
      match env.payformRes false with
      | Except.ok fid =>
        (env.sendRes fid,
          [RemoteCall.getPaymentForm true, RemoteCall.getPaymentForm false,
            RemoteCall.sendStarsForm fid])
      | Except.error e =>
        (Except.error e,
          [RemoteCall.getPaymentForm true, RemoteCall.getPaymentForm false])
    | Except.error e => (Except.error e, [RemoteCall.getPaymentForm true])
  else (Except.error PyErr.typeError, [])

/-- Audit events appended by `try_upgrade_one` (`ev` field of the dicts). -/
inductive AuditEv where
  | consider (key : String) (peer : String) (need : Int)
      (prepaid can_up : Bool)
  | dry_upgrade_prepaid (key : String)
  | upgrade_prepaid_ok (key : String)
  | dry_upgrade_paid (key : String) (need : Int)
  | upgrade_paid_ok (key : String) (need : Int)
  | upgrade_paid_err (key : String) (err : String)
deriving DecidableEq, Repr

/-- The terminal decision of `try_upgrade_one` for one gift, encoding the
returned `(ok, msg, spent)` triple. -/
inductive Outcome where
  | skipDone
  | skipNotUpgradable
  | noBalance (need bal : Int)
  | skipUncertain
  | prepaidDry
  | prepaidOk
  | paidDry (need : Int)
  | paidOk (need : Int)
  | paidErr (msg : String)
deriving DecidableEq, Repr

/-- The `ok` component of the returned triple. -/
def outcome_ok : Outcome → Bool
  | Outcome.prepaidDry => true
  | Outcome.prepaidOk => true
  | Outcome.paidDry _ => true
  | Outcome.paidOk _ => true
  | _ => false

/-- The `spent` component of the returned triple. -/
def outcome_spent : Outcome → Int
  | Outcome.paidOk need => need
  | _ => 0

/-- Engine configuration read from the environment. -/
structure Config where
  dry_run : Bool
  keep_original_details : Bool
deriving DecidableEq, Repr

/-- Observable effects of one `try_upgrade_one` run: the Python return (or
the exception propagating out), the dedup store after the run, the audit
events appended, and the remote calls issued. -/
structure StepOut where
  result : Except PyErr Outcome
  state : List String
  audit : List AuditEv
  calls : List RemoteCall
deriving Repr

/-- Whether the i-th `append_audit` of this run succeeds; an exhausted list
means the write succeeds. -/
def auditWriteOk (auditOk : List Bool) (i : Nat) : Bool :=
  auditOk.getD i true

/-- The paid branch of `try_upgrade_one` (lines 344-367), entered either
directly or after a prepaid `RPCError` fall-through; `a0`/`c0` are the audit
events and remote calls accumulated before entering it. -/
def paid_phase (cfg : Config) (env : RemoteEnv) (auditOk : List Bool)
    (peer key : String) (need stars_balance : Int) (st : List String)
    (a0 : List AuditEv) (c0 : List RemoteCall) : StepOut :=
  if need > 0 then
    if stars_balance < need then
      ⟨Except.ok (Outcome.noBalance need stars_balance), st, a0, c0⟩
    else if cfg.dry_run then
      if auditWriteOk auditOk 1 then
        ⟨Except.ok (Outcome.paidDry need), mark_upgraded st peer key,
          a0 ++ [AuditEv.dry_upgrade_paid key need], c0⟩
      else ⟨Except.error PyErr.osError, st, a0, c0⟩
    else
      match upgrade_paid env need cfg.keep_original_details with
      | (Except.ok _, calls) =>
        if auditWriteOk auditOk 1 then
          ⟨Except.ok (Outcome.paidOk need), mark_upgraded st peer key,
            a0 ++ [AuditEv.upgrade_paid_ok key need], c0 ++ calls⟩
        else ⟨Except.error PyErr.osError, st, a0, c0 ++ calls⟩
      | (Except.error e, calls) =>
        if isRPCError e then
          if auditWriteOk auditOk 1 then
            ⟨Except.ok (Outcome.paidErr (errMsg e)), st,
              a0 ++ [AuditEv.upgrade_paid_err key (errMsg e)], c0 ++ calls⟩
          else ⟨Except.error PyErr.osError, st, a0, c0 ++ calls⟩
        else ⟨Except.error e, st, a0, c0 ++ calls⟩
  else ⟨Except.ok (Outcome.skipUncertain), st, a0, c0⟩

/-- `Upgrader.try_upgrade_one` (lines 310-367), with audit-write outcomes
given by `auditOk` (a failed `append_audit` raises out of the function,
since the source has no handler there). -/
def try_upgrade_one (cfg : Config) (env : RemoteEnv) (auditOk : List Bool)
    (saved : SavedGift) (peer : String) (stars_balance : Int)
    (st : List String) : StepOut :=
  match gift_need_and_flags saved with
  | Option.none => ⟨Except.error PyErr.valueError, st, [], []⟩
  | some (need, prepaid, can_up) =>
    match gift_keys saved peer with
    | Option.none =>
      ⟨Except.error (PyErr.runtimeError "no msg_id/saved_id"), st, [], []⟩
    | some (key, _inp, _ktype) =>
      if auditWriteOk auditOk 0 then
        let a0 := [AuditEv.consider key peer need prepaid can_up]
        if already_upgraded st peer key then
          ⟨Except.ok Outcome.skipDone, st, a0, []⟩
        else if !can_up && !prepaid && need ≤ 0 then
          ⟨Except.ok Outcome.skipNotUpgradable, st, a0, []⟩
        else if prepaid then
          if cfg.dry_run then
            if auditWriteOk auditOk 1 then
              ⟨Except.ok Outcome.prepaidDry, mark_upgraded st peer key,
                a0 ++ [AuditEv.dry_upgrade_prepaid key], []⟩
            else ⟨Except.error PyErr.osError, st, a0, []⟩
          else
            match upgrade_prepaid env cfg.keep_original_details with
            | (Except.ok _, calls) =>
              if auditWriteOk auditOk 1 then
                ⟨Except.ok Outcome.prepaidOk, mark_upgraded st peer key,
                  a0 ++ [AuditEv.upgrade_prepaid_ok key], calls⟩
              else ⟨Except.error PyErr.osError, st, a0, calls⟩
            | (Except.error e, calls) =>
              if isRPCError e then
                paid_phase cfg env auditOk peer key need stars_balance st
                  a0 calls
              else ⟨Except.error e, st, a0, calls⟩
        else
          paid_phase cfg env auditOk peer key need stars_balance st a0 []
      else ⟨Except.error PyErr.osError, st, [], []⟩

/-- One gift to be processed in a cycle, together with the remote responses
and audit-write outcomes in effect while it is processed. -/
structure CycleItem where
  gift : SavedGift
  env : RemoteEnv
  auditOk : List Bool

/-- Running aggregates of `scan_and_upgrade_cycle` for one peer. -/
structure CycleAcc where
  balance : Int
  st : List String
  audit : List AuditEv
  calls : List RemoteCall
  found : Nat
  upgraded : Nat
  spent : Int

/-- Balance update of the cycle loop (line 405): only a successful result
with `spent > 0` changes it, via `max(0, balance - spent)`. -/
def cycle_balance_update (balance : Int) (out : StepOut) : Int :=
  match out.result with
  | Except.ok o =>
    if outcome_ok o && outcome_spent o > 0 then
      max 0 (balance - outcome_spent o)
    else balance
  | Except.error _ => balance

/-- One iteration of the per-gift loop of `scan_and_upgrade_cycle` (lines
396-416): any exception from `try_upgrade_one` is caught, logged and
absorbed, so the loop always continues with the next gift; state mutations
and appends made before a raise persist. -/
def cycle_step (cfg : Config) (peer : String) (acc : CycleAcc)
    (it : CycleItem) : CycleAcc :=
  let out := try_upgrade_one cfg it.env it.auditOk it.gift peer
    acc.balance acc.st
  { balance := cycle_balance_update acc.balance out
    st := out.state
    audit := acc.audit ++ out.audit
    calls := acc.calls ++ out.calls
    found := acc.found + 1
    upgraded := acc.upgraded +
      (match out.result with
       | Except.ok o => if outcome_ok o then 1 else 0
       | Except.error _ => 0)
    spent := acc.spent +
      (match out.result with
       | Except.ok o => if outcome_ok o then outcome_spent o else 0
       | Except.error _ => 0) }

/-- The per-gift loop of `scan_and_upgrade_cycle` over one peer's gifts. -/
def process_gifts (cfg : Config) (peer : String) (items : List CycleItem)
    (acc : CycleAcc) : CycleAcc :=
  items.foldl (cycle_step cfg peer) acc

/-- One response of `payments.getSavedStarGifts`: a page of gifts and the
continuation cursor. -/
structure GiftsPage where
  gifts : List SavedGift
  next_offset : Option String
deriving Repr

/-- The loop condition `if not offset: break`: `None` and the empty string
are falsy. -/
def cursor_stops : Option String → Bool
  | Option.none => true
  | some s => s = ""

/-- `Upgrader.iter_saved_gifts`: the service's successive page responses
are given as a list (response i+1 is what the service returns for the
cursor of response i); each round yields the page's gifts and continues
while the cursor is truthy. -/
def iter_saved_gifts : List GiftsPage → List SavedGift
  | [] => []
  | pg :: rest =>
    pg.gifts ++ (if cursor_stops pg.next_offset then [] else
      iter_saved_gifts rest)

/-- A well-formed service trace: every response hands out a truthy cursor
except the last, which stops the iteration. -/
def chain_serves : List GiftsPage → Bool
  | [] => true
  | [pg] => cursor_stops pg.next_offset
  | pg :: rest => !cursor_stops pg.next_offset && chain_serves rest

/-- Whether the Python return of `try_upgrade_one` is `(True, …)`. -/
def result_ok : Except PyErr Outcome → Bool
  | Except.ok o => outcome_ok o
  | Except.error _ => false

/-- Number of branch-specific audit events (beyond the initial `consider`)
the source emits for a terminal decision: the four skip variants emit
none; dry-run, success and paid failure emit exactly one. -/
def branch_events : Outcome → Nat
  | Outcome.skipDone => 0
  | Outcome.skipNotUpgradable => 0
  | Outcome.noBalance _ _ => 0
  | Outcome.skipUncertain => 0
  | _ => 1

/-- Remote calls belonging to the paid flow (payment-form request or
payment submission). -/
def is_payment_call : RemoteCall → Bool
  | RemoteCall.getPaymentForm _ => true
  | RemoteCall.sendStarsForm _ => true
  | _ => false

/-- Inputs on which `int()` — hence `as_int_stars` — raises: non-finite
floats. -/
def nonfinite_float : PyVal → Bool
  | PyVal.float PyFloat.nan => true
  | PyVal.float PyFloat.inf => true
  | _ => false

/-- Unparsable / unrecognized shapes: a string `float()` cannot parse (or
whose value `int()` rejects), or an object none of whose probes
(attributes, `to_dict` keys, `int(x)`) yields an integer. -/
def unrecognized_shape : PyVal → Bool
  | PyVal.str Option.none => true
  | PyVal.obj o =>
    (tryAttr o.amount).isNone && (tryAttr o.value).isNone &&
      (tryAttr o.units).isNone && (o.to_dict.bind dictStars).isNone &&
      o.int_conv.isNone
  | _ => false

/-- Environment whose first (parameter-rich) calls are rejected with
`TypeError` and whose reduced calls succeed; the invoice constructor
accepts the flag, so the paid `TypeError` here comes from the payform call
itself. -/
def envProbe : RemoteEnv where
  upgradeRes := fun withParam =>
    if withParam then Except.error PyErr.typeError else Except.ok ()
  invoiceFlagOk := true
  payformRes := fun withParam =>
    if withParam then Except.error PyErr.typeError else Except.ok 7
  sendRes := fun _ => Except.ok ()

/-- Environment in which every remote call succeeds. -/
def envAllOk : RemoteEnv where
  upgradeRes := fun _ => Except.ok ()
  invoiceFlagOk := true
  payformRes := fun _ => Except.ok 1
  sendRes := fun _ => Except.ok ()

/-- Environment in which every remote call fails with a business
`RPCError`. -/
def envAllRpcFail : RemoteEnv where
  upgradeRes := fun _ => Except.error (PyErr.rpcError "BALANCE_TOO_LOW")
  invoiceFlagOk := true
  payformRes := fun _ => Except.error (PyErr.rpcError "BALANCE_TOO_LOW")
  sendRes := fun _ => Except.error (PyErr.rpcError "BALANCE_TOO_LOW")

/-- Environment on a TL layer whose `InputInvoiceStarGiftUpgrade`
constructor rejects the `keep_original_details` parameter; every remote
call would succeed. -/
def envNoFlagInvoice : RemoteEnv where
  upgradeRes := fun _ => Except.ok ()
  invoiceFlagOk := false
  payformRes := fun _ => Except.ok 7
  sendRes := fun _ => Except.ok ()

/-- Default non-dry configuration. -/
def cfgLive : Config := ⟨false, true⟩

/-- Dry-run configuration. -/
def cfgDry : Config := ⟨true, true⟩

/-- A prepaid message-addressed gift. -/
def gPrepaid : SavedGift :=
  ⟨PyVal.int 0, Option.none, true, false, some 5, Option.none⟩

/-- A paid-eligible gift costing 50 stars. -/
def gPaid : SavedGift :=
  ⟨PyVal.int 50, Option.none, false, true, some 6, Option.none⟩

/-- A gift with no prepaid token, no hint and zero cost. -/
def gNotUp : SavedGift :=
  ⟨PyVal.int 0, Option.none, false, false, some 7, Option.none⟩

/-- A gift whose cost normalizes to a negative value (negative decimal
string) with the can-upgrade hint set. -/
def gNegCost : SavedGift :=
  ⟨PyVal.str (some (-5)), Option.none, false, true, some 8, Option.none⟩

/-- A malformed gift with neither addressing scheme. -/
def gNoKeys : SavedGift :=
  ⟨PyVal.int 3, Option.none, false, true, Option.none, Option.none⟩

/-- A gift carrying both addressing schemes at once. -/
def gBothKeys : SavedGift :=
  ⟨PyVal.int 3, Option.none, false, true, some 3, some 4⟩

/-- An empty cycle accumulator with a given starting balance. -/
def accStart (balance : Int) : CycleAcc :=
  ⟨balance, [], [], [], 0, 0, 0⟩

/-- A concrete two-page service trace: three gifts split 2 + 1, the first
page handing out a continuation cursor, the second handing out none. -/
def pagesW : List GiftsPage :=
  [⟨[gPrepaid, gPaid], some "c1"⟩, ⟨[gNotUp], Option.none⟩]

/-! ### Structural lemmas -/

lemma paid_phase_state (cfg : Config) (env : RemoteEnv) (auditOk : List Bool)
    (peer key : String) (need bal : Int) (st : List String)
    (a0 : List AuditEv) (c0 : List RemoteCall) :
    ((paid_phase cfg env auditOk peer key need bal st a0 c0).state = st ∧
      result_ok (paid_phase cfg env auditOk peer key need bal st a0 c0).result
        = false) ∨
    ((paid_phase cfg env auditOk peer key need bal st a0 c0).state =
        mark_upgraded st peer key ∧
      result_ok (paid_phase cfg env auditOk peer key need bal st a0 c0).result
        = true) := by
  unfold paid_phase
  repeat' split
  all_goals try (left; exact ⟨rfl, rfl⟩)
  all_goals right; exact ⟨rfl, rfl⟩

lemma try_upgrade_one_state (cfg : Config) (env : RemoteEnv)
    (auditOk : List Bool) (saved : SavedGift) (peer : String) (bal : Int)
    (st : List String) :
    ((try_upgrade_one cfg env auditOk saved peer bal st).state = st ∧
      result_ok (try_upgrade_one cfg env auditOk saved peer bal st).result
        = false) ∨
    (∃ key inp ktype, gift_keys saved peer = some (key, inp, ktype) ∧
      (try_upgrade_one cfg env auditOk saved peer bal st).state =
        mark_upgraded st peer key ∧
      result_ok (try_upgrade_one cfg env auditOk saved peer bal st).result
        = true) := by
  unfold try_upgrade_one
  repeat' split
  all_goals try (left; exact ⟨rfl, rfl⟩)
  all_goals try (right; exact ⟨_, _, _, by assumption, rfl, rfl⟩)
  all_goals
    (rcases paid_phase_state cfg env auditOk peer _ _ bal st _ _ with
       ⟨h1, h2⟩ | ⟨h1, h2⟩
     · exact Or.inl ⟨h1, h2⟩
     · exact Or.inr ⟨_, _, _, by assumption, h1, h2⟩)

lemma paid_phase_paidOk (cfg : Config) (env : RemoteEnv) (auditOk : List Bool)
    (peer key : String) (need bal : Int) (st : List String)
    (a0 : List AuditEv) (c0 : List RemoteCall) (n : Int)
    (h : (paid_phase cfg env auditOk peer key need bal st a0 c0).result =
      Except.ok (Outcome.paidOk n)) :
    n = need ∧ 0 < need ∧ ¬ bal < need := by
  unfold paid_phase at h
  repeat' split at h
  all_goals simp_all

lemma try_upgrade_one_paidOk (cfg : Config) (env : RemoteEnv)
    (auditOk : List Bool) (saved : SavedGift) (peer : String) (bal : Int)
    (st : List String) (n : Int)
    (h : (try_upgrade_one cfg env auditOk saved peer bal st).result =
      Except.ok (Outcome.paidOk n)) :
    0 < n ∧ n ≤ bal := by
  unfold try_upgrade_one at h
  repeat' split at h
  all_goals try simp_all
  all_goals
    (obtain ⟨h1, h2, h3⟩ := paid_phase_paidOk _ _ _ _ _ _ _ _ _ _ _ h
     omega)

lemma try_upgrade_one_skipDone (cfg : Config) (env : RemoteEnv)
    (auditOk : List Bool) (saved : SavedGift) (peer : String) (bal : Int)
    (st : List String) (key : String) (inp : InputSavedStarGift)
    (ktype : String) (need : Int) (prepaid can_up : Bool)
    (hn : gift_need_and_flags saved = some (need, prepaid, can_up))
    (hk : gift_keys saved peer = some (key, inp, ktype))
    (ha : auditWriteOk auditOk 0 = true)
    (hdone : already_upgraded st peer key = true) :
    try_upgrade_one cfg env auditOk saved peer bal st =
      ⟨Except.ok Outcome.skipDone, st,
        [AuditEv.consider key peer need prepaid can_up], []⟩ := by
  unfold try_upgrade_one
  rw [hn, hk]
  simp [ha, hdone]

lemma cycle_balance_update_le (bal : Int) (out : StepOut) (hb : 0 ≤ bal) :
    cycle_balance_update bal out ≤ bal ∧ 0 ≤ cycle_balance_update bal out := by
  unfold cycle_balance_update
  repeat' split
  all_goals try omega
  rename_i h
  simp only [Bool.and_eq_true, decide_eq_true_eq] at h
  omega

lemma paid_phase_dry_calls (cfg : Config) (env : RemoteEnv)
    (auditOk : List Bool) (peer key : String) (need bal : Int)
    (st : List String) (a0 : List AuditEv) (c0 : List RemoteCall)
    (hd : cfg.dry_run = true) :
    (paid_phase cfg env auditOk peer key need bal st a0 c0).calls = c0 := by
  unfold paid_phase
  repeat' split
  all_goals simp_all

lemma try_upgrade_one_dry_calls (cfg : Config) (env : RemoteEnv)
    (auditOk : List Bool) (saved : SavedGift) (peer : String) (bal : Int)
    (st : List String) (hd : cfg.dry_run = true) :
    (try_upgrade_one cfg env auditOk saved peer bal st).calls = [] := by
  unfold try_upgrade_one
  repeat' split
  all_goals try rfl
  all_goals exact paid_phase_dry_calls _ _ _ _ _ _ _ _ _ _ hd

lemma paid_phase_nonpos_need (cfg : Config) (env : RemoteEnv)
    (auditOk : List Bool) (peer key : String) (need bal : Int)
    (st : List String) (a0 : List AuditEv) (c0 : List RemoteCall)
    (hneed : need ≤ 0) :
    paid_phase cfg env auditOk peer key need bal st a0 c0 =
      ⟨Except.ok Outcome.skipUncertain, st, a0, c0⟩ := by
  unfold paid_phase
  simp [show ¬ need > 0 by omega]

lemma upgrade_prepaid_calls_kind (env : RemoteEnv) (keep : Bool) :
    ∀ c ∈ (upgrade_prepaid env keep).2, is_payment_call c = false := by
  unfold upgrade_prepaid
  repeat' split
  all_goals simp [is_payment_call]

lemma paid_phase_audit (cfg : Config) (env : RemoteEnv) (peer key : String)
    (need bal : Int) (st : List String) (a0 : List AuditEv)
    (c0 : List RemoteCall) :
    ∃ extra,
      (paid_phase cfg env [] peer key need bal st a0 c0).audit = a0 ++ extra ∧
      ∀ o, (paid_phase cfg env [] peer key need bal st a0 c0).result =
        Except.ok o → extra.length = branch_events o := by
  unfold paid_phase
  repeat' split
  all_goals try
    (refine ⟨[], by simp, ?_⟩
     intro o ho
     injection ho with ho
     subst ho
     rfl)
  all_goals try
    (refine ⟨_, rfl, ?_⟩
     intro o ho
     injection ho with ho
     subst ho
     rfl)
  all_goals
    (refine ⟨[], by simp, ?_⟩
     intro o ho
     cases ho)

lemma try_upgrade_one_noBalance (cfg : Config) (env : RemoteEnv)
    (auditOk : List Bool) (saved : SavedGift) (peer : String) (bal : Int)
    (st : List String) (key : String) (inp : InputSavedStarGift)
    (ktype : String) (need : Int) (prepaid can_up : Bool)
    (hn : gift_need_and_flags saved = some (need, prepaid, can_up))
    (hk : gift_keys saved peer = some (key, inp, ktype))
    (ha : auditWriteOk auditOk 0 = true)
    (hdone : already_upgraded st peer key = false)
    (hneed : 0 < need) (hbal : bal < need)
    (hpre : prepaid = false ∨
      (cfg.dry_run = false ∧ ∃ e,
        (upgrade_prepaid env cfg.keep_original_details).1 = Except.error e ∧
        isRPCError e = true)) :
    (try_upgrade_one cfg env auditOk saved peer bal st).result =
      Except.ok (Outcome.noBalance need bal) ∧
    (try_upgrade_one cfg env auditOk saved peer bal st).state = st := by
  unfold try_upgrade_one
  rw [hn, hk]
  rcases hpre with hpre | ⟨hdry, e, he, herpc⟩
  · subst hpre
    simp [ha, hdone, show ¬ need ≤ 0 by omega, paid_phase, hneed, hbal]
  · rcases hup : upgrade_prepaid env cfg.keep_original_details with ⟨r, calls⟩
    rw [hup] at he
    simp only at he
    subst he
    by_cases hp : prepaid = true
    · simp [ha, hdone, show ¬ need ≤ 0 by omega, hp, hdry, hup, herpc,
        paid_phase, hneed, hbal]
    · simp [ha, hdone, show ¬ need ≤ 0 by omega, hp, paid_phase, hneed, hbal]

lemma iter_saved_gifts_join (pages : List GiftsPage)
    (h : chain_serves pages = true) :
    iter_saved_gifts pages = (pages.map GiftsPage.gifts).flatten := by
  induction pages with
  | nil => rfl
  | cons pg rest ih =>
    cases rest with
    | nil =>
      simp only [chain_serves] at h
      simp [iter_saved_gifts, h]
    | cons pg2 rest2 =>
      simp only [chain_serves, Bool.and_eq_true, Bool.not_eq_true'] at h
      rw [show iter_saved_gifts (pg :: pg2 :: rest2) = pg.gifts ++
        (if cursor_stops pg.next_offset = true then []
          else iter_saved_gifts (pg2 :: rest2)) from rfl, h.1]
      simp [ih h.2]

/-! ### Claim theorems -/

/-- C5 (confirmed): pagination completeness and termination — when the
service's page responses form a chain whose last response carries no
continuation cursor (and every earlier one does), `iter_saved_gifts`
yields exactly the concatenation of all pages, in service order, and its
item count is the sum of the page sizes; termination is witnessed by
`iter_saved_gifts` being a total structurally-recursive function of the
response list. -/
theorem pagination_complete (pages : List GiftsPage)
    (h : chain_serves pages = true) :
    iter_saved_gifts pages = (pages.map GiftsPage.gifts).flatten ∧
    (iter_saved_gifts pages).length =
      ((pages.map GiftsPage.gifts).map List.length).sum := by
  refine ⟨iter_saved_gifts_join pages h, ?_⟩
  rw [iter_saved_gifts_join pages h]
  simp [List.length_flatten]

/-- Witness for C5 at a concrete two-page trace of 3 items. -/
theorem pagination_complete_witness :
    chain_serves pagesW = true ∧
    (iter_saved_gifts pagesW = (pagesW.map GiftsPage.gifts).flatten ∧
      (iter_saved_gifts pagesW).length =
        ((pagesW.map GiftsPage.gifts).map List.length).sum) :=
  ⟨by decide, pagination_complete pagesW (by decide)⟩

/-- C6 (corrected): `as_int_stars` returns a canonical integer without
raising on every input except a non-finite float (`nan`/`inf`), on which
`int(x)` raises outside any handler; unparsable or unrecognized shapes
normalize to zero. -/
theorem as_int_stars_total (v : PyVal) (h : nonfinite_float v = false) :
    (as_int_stars v).isSome = true ∧
    (unrecognized_shape v = true → as_int_stars v = some 0) := by
  cases v with
  | pyNone => exact ⟨rfl, fun h2 => Bool.noConfusion h2⟩
  | int n => exact ⟨rfl, fun h2 => Bool.noConfusion h2⟩
  | float f =>
    cases f with
    | finite t => exact ⟨rfl, fun h2 => Bool.noConfusion h2⟩
    | nan => exact Bool.noConfusion h
    | inf => exact Bool.noConfusion h
  | str conv =>
    cases conv with
    | none => exact ⟨rfl, fun _ => rfl⟩
    | some n => exact ⟨rfl, fun h2 => Bool.noConfusion h2⟩
  | obj o =>
    refine ⟨rfl, fun h2 => ?_⟩
    simp only [unrecognized_shape, Bool.and_eq_true,
      Option.isNone_iff_eq_none] at h2
    obtain ⟨⟨⟨⟨h1, h2'⟩, h3⟩, h4⟩, h5⟩ := h2
    simp [as_int_stars, objStars, h1, h2', h3, h4, h5, Option.orElse]

/-- Witness for C6 at an unparsable decimal string. -/
theorem as_int_stars_total_witness :
    nonfinite_float (PyVal.str Option.none) = false ∧
    ((as_int_stars (PyVal.str Option.none)).isSome = true ∧
      (unrecognized_shape (PyVal.str Option.none) = true →
        as_int_stars (PyVal.str Option.none) = some 0)) :=
  ⟨rfl, as_int_stars_total (PyVal.str Option.none) rfl⟩

/-- Counterexample to C6 as stated: on the plain float `nan`,
`as_int_stars` raises (`int(nan)` is a `ValueError` outside any handler)
instead of returning a canonical integer. -/
theorem as_int_stars_nan_raises :
    as_int_stars (PyVal.float PyFloat.nan) = Option.none := rfl

/-- C7 (code bug): the spec's unrecognized-parameter fallback — stated by
the source's own comment at line 301 — is implemented only on the prepaid
operation.  `_upgrade_paid` builds the flag-carrying
`InputInvoiceStarGiftUpgrade` at lines 294-297, outside its `try`, so on a
layer whose constructor rejects `keep_original_details` the `TypeError`
propagates with no retry and no remote call, and escapes
`try_upgrade_one` (whose handler catches only `RPCError`), leaving the
item aborted with store and calls untouched; the prepaid operation, whose
constructor sits inside its `try`, retries exactly once as claimed. -/
theorem upgrade_paid_flag_rejection_bug :
    upgrade_prepaid envProbe true = (Except.ok (),
      [RemoteCall.upgradeStarGift true, RemoteCall.upgradeStarGift false]) ∧
    upgrade_prepaid envAllRpcFail true =
      (Except.error (PyErr.rpcError "BALANCE_TOO_LOW"),
        [RemoteCall.upgradeStarGift true]) ∧
    upgrade_paid envNoFlagInvoice 50 true =
      (Except.error PyErr.typeError, []) ∧
    (try_upgrade_one cfgLive envNoFlagInvoice [] gPaid "p" 100 []).result =
      Except.error PyErr.typeError ∧
    (try_upgrade_one cfgLive envNoFlagInvoice [] gPaid "p" 100 []).state =
      [] ∧
    (try_upgrade_one cfgLive envNoFlagInvoice [] gPaid "p" 100 []).calls =
      [] :=
  ⟨rfl, rfl, rfl, rfl, rfl, rfl⟩

/-- C10 (confirmed): the paid path is entered only for strictly positive
normalized cost.  A gift with negative cost, no prepaid token and the
can-upgrade hint set terminates in `skip:uncertain`; the not-upgradable
check treats any cost `<= 0` as zero-cost; no gift with cost `<= 0` ever
produces a payment-form or payment-submission call; and normalization can
indeed produce a negative integer from a negative decimal string. -/
theorem negative_cost_no_payment (cfg : Config) (env : RemoteEnv)
    (auditOk : List Bool) (saved : SavedGift) (peer : String) (bal : Int)
    (st : List String) (key : String) (inp : InputSavedStarGift)
    (ktype : String)
    (hk : gift_keys saved peer = some (key, inp, ktype))
    (ha : auditWriteOk auditOk 0 = true)
    (hdone : already_upgraded st peer key = false) :
    (∀ need, gift_need_and_flags saved = some (need, false, true) →
      need < 0 →
      (try_upgrade_one cfg env auditOk saved peer bal st).result =
        Except.ok Outcome.skipUncertain ∧
      (try_upgrade_one cfg env auditOk saved peer bal st).state = st ∧
      (try_upgrade_one cfg env auditOk saved peer bal st).calls = []) ∧
    (∀ need, gift_need_and_flags saved = some (need, false, false) →
      need ≤ 0 →
      (try_upgrade_one cfg env auditOk saved peer bal st).result =
        Except.ok Outcome.skipNotUpgradable) ∧
    (∀ need prepaid can_up,
      gift_need_and_flags saved = some (need, prepaid, can_up) →
      need ≤ 0 →
      ∀ c ∈ (try_upgrade_one cfg env auditOk saved peer bal st).calls,
        is_payment_call c = false) ∧
    as_int_stars (PyVal.str (some (-5))) = some (-5) := by
  refine ⟨?_, ?_, ?_, rfl⟩
  · intro need hn hneed
    unfold try_upgrade_one
    rw [hn, hk]
    simp [ha, hdone, paid_phase, show ¬ need > 0 by omega]
  · intro need hn hneed
    unfold try_upgrade_one
    rw [hn, hk]
    simp [ha, hdone, hneed]
  · intro need prepaid can_up hn hneed
    rcases hup : upgrade_prepaid env cfg.keep_original_details with ⟨r, calls⟩
    have hkind := upgrade_prepaid_calls_kind env cfg.keep_original_details
    rw [hup] at hkind
    unfold try_upgrade_one
    rw [hn, hk, hup]
    simp only [ha, if_true, hdone, Bool.false_eq_true, if_false]
    cases r <;> dsimp only <;> repeat' split
    all_goals try (intro c hc; exact absurd hc (List.not_mem_nil c))
    all_goals try exact hkind
    all_goals
      (rw [paid_phase_nonpos_need cfg env auditOk peer key need bal st _ _
        hneed]
       first
         | (intro c hc; exact absurd hc (List.not_mem_nil c))
         | exact hkind)

/-- Witness for C10 at the negative-decimal-string gift. -/
theorem negative_cost_no_payment_witness :
    (try_upgrade_one cfgLive envAllOk [] gNegCost "p" 100 []).result =
      Except.ok Outcome.skipUncertain ∧
    (try_upgrade_one cfgLive envAllOk [] gNegCost "p" 100 []).state = [] ∧
    (try_upgrade_one cfgLive envAllOk [] gNegCost "p" 100 []).calls = [] :=
  (negative_cost_no_payment cfgLive envAllOk [] gNegCost "p" 100 []
    "user_msg:8" (InputSavedStarGift.user 8) "user_msg" rfl rfl rfl).1
    (-5) rfl (by decide)

/-- C1 (confirmed): a dedup record is written iff the attempt is considered
successful (including dry-run simulation) — on failure, raise or any skip
the store is unchanged — and once the record exists, a later invocation on
the same `(source, key)` terminates in `skip:done` with no remote call. -/
theorem dedup_iff_success (cfg : Config) (env : RemoteEnv)
    (auditOk : List Bool) (saved : SavedGift) (peer : String) (bal : Int)
    (st : List String) :
    (result_ok (try_upgrade_one cfg env auditOk saved peer bal st).result =
        false →
      (try_upgrade_one cfg env auditOk saved peer bal st).state = st) ∧
    (result_ok (try_upgrade_one cfg env auditOk saved peer bal st).result =
        true →
      ∃ key inp ktype, gift_keys saved peer = some (key, inp, ktype) ∧
        (try_upgrade_one cfg env auditOk saved peer bal st).state =
          mark_upgraded st peer key ∧
        already_upgraded
          (try_upgrade_one cfg env auditOk saved peer bal st).state peer key
          = true) ∧
    (∀ cfg2 env2 auditOk2 saved2 bal2 st2 key inp ktype need2 prepaid2
        can_up2,
      gift_need_and_flags saved2 = some (need2, prepaid2, can_up2) →
      gift_keys saved2 peer = some (key, inp, ktype) →
      auditWriteOk auditOk2 0 = true →
      already_upgraded st2 peer key = true →
      try_upgrade_one cfg2 env2 auditOk2 saved2 peer bal2 st2 =
        ⟨Except.ok Outcome.skipDone, st2,
          [AuditEv.consider key peer need2 prepaid2 can_up2], []⟩) := by
  refine ⟨?_, ?_, ?_⟩
  · intro h
    rcases try_upgrade_one_state cfg env auditOk saved peer bal st with
      ⟨h1, _⟩ | ⟨_, _, _, _, _, h2⟩
    · exact h1
    · rw [h] at h2
      cases h2
  · intro h
    rcases try_upgrade_one_state cfg env auditOk saved peer bal st with
      ⟨_, h2⟩ | ⟨key, inp, ktype, hk, h1, _⟩
    · rw [h] at h2
      cases h2
    · refine ⟨key, inp, ktype, hk, h1, ?_⟩
      rw [h1]
      simp [already_upgraded, mark_upgraded]
  · intro cfg2 env2 auditOk2 saved2 bal2 st2 key inp ktype need2 prepaid2
      can_up2 hn hk ha hdone
    exact try_upgrade_one_skipDone cfg2 env2 auditOk2 saved2 peer bal2 st2
      key inp ktype need2 prepaid2 can_up2 hn hk ha hdone

/-- Witness for C1: a prepaid gift is upgraded and marked; re-running the
engine on the resulting store (now against a failing remote) yields
`skip:done`, no state change and no remote call. -/
theorem dedup_iff_success_witness :
    result_ok (try_upgrade_one cfgLive envAllOk [] gPrepaid "p" 0 []).result
      = true ∧
    (try_upgrade_one cfgLive envAllOk [] gPrepaid "p" 0 []).state =
      ["p:user_msg:5"] ∧
    try_upgrade_one cfgLive envAllRpcFail [] gPrepaid "p" 0
        ["p:user_msg:5"] =
      ⟨Except.ok Outcome.skipDone, ["p:user_msg:5"],
        [AuditEv.consider "user_msg:5" "p" 0 true false], []⟩ :=
  ⟨rfl, rfl,
    (dedup_iff_success cfgLive envAllOk [] gPrepaid "p" 0 []).2.2
      cfgLive envAllRpcFail [] gPrepaid 0 ["p:user_msg:5"] "user_msg:5"
      (InputSavedStarGift.user 5) "user_msg" 0 true false rfl rfl rfl
      (by decide)⟩

/-- C2 (confirmed): within one cycle the running balance never increases
and never goes negative; a paid-eligible gift with cost above the balance
yields `skip:no_balance` with balance and store unchanged; a successful
non-dry paid upgrade decrements the balance by exactly the cost. -/
theorem balance_safety (cfg : Config) (peer : String) :
    (∀ items acc, 0 ≤ acc.balance →
      (process_gifts cfg peer items acc).balance ≤ acc.balance ∧
      0 ≤ (process_gifts cfg peer items acc).balance) ∧
    (∀ env auditOk saved bal st key inp ktype need prepaid can_up,
      gift_need_and_flags saved = some (need, prepaid, can_up) →
      gift_keys saved peer = some (key, inp, ktype) →
      auditWriteOk auditOk 0 = true →
      already_upgraded st peer key = false →
      0 < need → bal < need →
      (prepaid = false ∨ (cfg.dry_run = false ∧ ∃ e,
        (upgrade_prepaid env cfg.keep_original_details).1 = Except.error e ∧
        isRPCError e = true)) →
      (try_upgrade_one cfg env auditOk saved peer bal st).result =
        Except.ok (Outcome.noBalance need bal) ∧
      (try_upgrade_one cfg env auditOk saved peer bal st).state = st ∧
      cycle_balance_update bal
        (try_upgrade_one cfg env auditOk saved peer bal st) = bal) ∧
    (∀ env auditOk saved bal st n,
      (try_upgrade_one cfg env auditOk saved peer bal st).result =
        Except.ok (Outcome.paidOk n) →
      0 < n ∧ n ≤ bal ∧
      cycle_balance_update bal
        (try_upgrade_one cfg env auditOk saved peer bal st) = bal - n) := by
  refine ⟨?_, ?_, ?_⟩
  · intro items
    induction items with
    | nil => exact fun acc hb => ⟨le_refl _, hb⟩
    | cons it rest ih =>
      intro acc hb
      have hstep := cycle_balance_update_le acc.balance
        (try_upgrade_one cfg it.env it.auditOk it.gift peer acc.balance
          acc.st) hb
      have h2 := ih (cycle_step cfg peer acc it) hstep.2
      exact ⟨le_trans h2.1 hstep.1, h2.2⟩
  · intro env auditOk saved bal st key inp ktype need prepaid can_up hn hk
      ha hdone hneed hbal hpre
    obtain ⟨h1, h2⟩ := try_upgrade_one_noBalance cfg env auditOk saved peer
      bal st key inp ktype need prepaid can_up hn hk ha hdone hneed hbal hpre
    refine ⟨h1, h2, ?_⟩
    simp [cycle_balance_update, h1, outcome_ok]
  · intro env auditOk saved bal st n h
    obtain ⟨h1, h2⟩ := try_upgrade_one_paidOk cfg env auditOk saved peer bal
      st n h
    refine ⟨h1, h2, ?_⟩
    have h3 : cycle_balance_update bal
        (try_upgrade_one cfg env auditOk saved peer bal st) =
        max 0 (bal - n) := by
      simp [cycle_balance_update, h, outcome_ok, outcome_spent, h1]
    rw [h3]
    omega

/-- Witness for C2: cost 50 against balance 30 skips with no spend; cost 50
against balance 100 spends exactly 50. -/
theorem balance_safety_witness :
    (try_upgrade_one cfgLive envAllOk [] gPaid "p" 30 []).result =
      Except.ok (Outcome.noBalance 50 30) ∧
    cycle_balance_update 30
      (try_upgrade_one cfgLive envAllOk [] gPaid "p" 30 []) = 30 ∧
    cycle_balance_update 100
      (try_upgrade_one cfgLive envAllOk [] gPaid "p" 100 []) = 100 - 50 :=
  ⟨((balance_safety cfgLive "p").2.1 envAllOk [] gPaid 30 [] "user_msg:6"
      (InputSavedStarGift.user 6) "user_msg" 50 false true rfl rfl rfl rfl
      (by decide) (by decide) (Or.inl rfl)).1,
    ((balance_safety cfgLive "p").2.1 envAllOk [] gPaid 30 [] "user_msg:6"
      (InputSavedStarGift.user 6) "user_msg" 50 false true rfl rfl rfl rfl
      (by decide) (by decide) (Or.inl rfl)).2.2,
    ((balance_safety cfgLive "p").2.2 envAllOk [] gPaid 100 [] 50 rfl).2.2⟩

/-- C3 (corrected): every processed gift emits exactly one `consider`
event on entry; the dry-run, success and paid-failure branches emit
exactly one further branch event; the skip variants emit none, so a
skipped gift's whole trace is the single `consider` event. -/
theorem audit_per_branch (cfg : Config) (env : RemoteEnv)
    (saved : SavedGift) (peer : String) (bal : Int) (st : List String)
    (key : String) (inp : InputSavedStarGift) (ktype : String)
    (need : Int) (prepaid can_up : Bool)
    (hn : gift_need_and_flags saved = some (need, prepaid, can_up))
    (hk : gift_keys saved peer = some (key, inp, ktype)) :
    ∃ rest,
      (try_upgrade_one cfg env [] saved peer bal st).audit =
        AuditEv.consider key peer need prepaid can_up :: rest ∧
      ∀ o, (try_upgrade_one cfg env [] saved peer bal st).result =
        Except.ok o → rest.length = branch_events o := by
  unfold try_upgrade_one
  rw [hn, hk]
  have haud : ∀ i, auditWriteOk [] i = true := fun i => rfl
  simp only [haud, if_true]
  repeat' split
  all_goals try
    (refine ⟨_, rfl, ?_⟩
     intro o ho
     injection ho with ho
     subst ho
     rfl)
  all_goals try
    (refine ⟨[], rfl, ?_⟩
     intro o ho
     exact Except.noConfusion ho)
  all_goals
    (obtain ⟨extra, he, hb⟩ := paid_phase_audit cfg env peer key need bal st
       [AuditEv.consider key peer need prepaid can_up] _
     exact ⟨extra, he, hb⟩)

/-- Witness for C3 at a skipped (not-upgradable) gift. -/
theorem audit_per_branch_witness :
    ∃ rest,
      (try_upgrade_one cfgLive envAllOk [] gNotUp "p" 0 []).audit =
        AuditEv.consider "user_msg:7" "p" 0 false false :: rest ∧
      ∀ o, (try_upgrade_one cfgLive envAllOk [] gNotUp "p" 0 []).result =
        Except.ok o → rest.length = branch_events o :=
  audit_per_branch cfgLive envAllOk gNotUp "p" 0 [] "user_msg:7"
    (InputSavedStarGift.user 7) "user_msg" 0 false false rfl rfl

/-- Counterexample to C3 as stated: a gift skipped as not-upgradable emits
no skip event — its whole trace is the one `consider` event — while a
successful prepaid upgrade emits two events in total; so the skip branch
emits no audit event of its own. -/
theorem audit_skip_no_event_cex :
    (try_upgrade_one cfgLive envAllOk [] gNotUp "p" 0 []).result =
      Except.ok Outcome.skipNotUpgradable ∧
    (try_upgrade_one cfgLive envAllOk [] gNotUp "p" 0 []).audit =
      [AuditEv.consider "user_msg:7" "p" 0 false false] ∧
    (try_upgrade_one cfgLive envAllOk [] gPrepaid "p" 0 []).result =
      Except.ok Outcome.prepaidOk ∧
    (try_upgrade_one cfgLive envAllOk [] gPrepaid "p" 0 []).audit.length
      = 2 :=
  ⟨rfl, rfl, rfl, rfl⟩

/-- C4 (confirmed): under dry-run no remote executor call is ever issued
for any gift, and an eligible gift (prepaid, or paid with sufficient
balance) terminates in the simulated-success state and is marked done. -/
theorem dry_run_frame (cfg : Config) (env : RemoteEnv) (auditOk : List Bool)
    (saved : SavedGift) (peer : String) (bal : Int) (st : List String)
    (hd : cfg.dry_run = true) :
    (try_upgrade_one cfg env auditOk saved peer bal st).calls = [] ∧
    (∀ key inp ktype need prepaid can_up,
      gift_need_and_flags saved = some (need, prepaid, can_up) →
      gift_keys saved peer = some (key, inp, ktype) →
      auditWriteOk auditOk 0 = true → auditWriteOk auditOk 1 = true →
      already_upgraded st peer key = false →
      (prepaid = true →
        try_upgrade_one cfg env auditOk saved peer bal st =
          ⟨Except.ok Outcome.prepaidDry, mark_upgraded st peer key,
            [AuditEv.consider key peer need true can_up,
              AuditEv.dry_upgrade_prepaid key], []⟩) ∧
      (prepaid = false → 0 < need → ¬ bal < need →
        try_upgrade_one cfg env auditOk saved peer bal st =
          ⟨Except.ok (Outcome.paidDry need), mark_upgraded st peer key,
            [AuditEv.consider key peer need false can_up,
              AuditEv.dry_upgrade_paid key need], []⟩)) := by
  refine ⟨try_upgrade_one_dry_calls cfg env auditOk saved peer bal st hd,
    ?_⟩
  intro key inp ktype need prepaid can_up hn hk ha0 ha1 hdone
  constructor
  · intro hp
    subst hp
    unfold try_upgrade_one
    rw [hn, hk]
    simp [ha0, ha1, hdone, hd]
  · intro hp hneed hbal
    subst hp
    unfold try_upgrade_one
    rw [hn, hk]
    simp [ha0, ha1, hdone, hd, paid_phase, hneed, hbal,
      show ¬ need ≤ 0 by omega]

/-- Witness for C4: dry run over a paid-eligible gift against a remote
that would reject everything — still a simulated success, marked done,
zero calls. -/
theorem dry_run_frame_witness :
    (try_upgrade_one cfgDry envAllRpcFail [] gPaid "p" 100 []).calls = []
      ∧
    try_upgrade_one cfgDry envAllRpcFail [] gPaid "p" 100 [] =
      ⟨Except.ok (Outcome.paidDry 50), ["p:user_msg:6"],
        [AuditEv.consider "user_msg:6" "p" 50 false true,
          AuditEv.dry_upgrade_paid "user_msg:6" 50], []⟩ :=
  ⟨(dry_run_frame cfgDry envAllRpcFail [] gPaid "p" 100 [] rfl).1,
    ((dry_run_frame cfgDry envAllRpcFail [] gPaid "p" 100 [] rfl).2
      "user_msg:6" (InputSavedStarGift.user 6) "user_msg" 50 false true
      rfl rfl rfl rfl rfl).2 rfl (by decide) (by decide)⟩

/-- C8 (corrected): `append_audit` has no handler, so a failed audit write
propagates out of `try_upgrade_one` and aborts the current item — here a
prepaid upgrade whose remote call already succeeded is left unmarked —
while the enclosing cycle's per-item handler absorbs the exception and
continues (state, balance and counters of the accumulator unchanged,
found incremented). -/
theorem audit_failure_aborts_item (cfg : Config) (env : RemoteEnv)
    (saved : SavedGift) (peer : String) (bal : Int) (st : List String)
    (key : String) (inp : InputSavedStarGift) (ktype : String)
    (need : Int) (can_up : Bool) (acc : CycleAcc)
    (hn : gift_need_and_flags saved = some (need, true, can_up))
    (hk : gift_keys saved peer = some (key, inp, ktype))
    (hdone : already_upgraded st peer key = false)
    (hdry : cfg.dry_run = false)
    (henv : env.upgradeRes true = Except.ok ())
    (hacc1 : acc.balance = bal) (hacc2 : acc.st = st) :
    (try_upgrade_one cfg env [true, false] saved peer bal st).result =
      Except.error PyErr.osError ∧
    (try_upgrade_one cfg env [true, false] saved peer bal st).state = st ∧
    (try_upgrade_one cfg env [true, false] saved peer bal st).calls =
      [RemoteCall.upgradeStarGift true] ∧
    (cycle_step cfg peer acc ⟨saved, env, [true, false]⟩).balance =
      acc.balance ∧
    (cycle_step cfg peer acc ⟨saved, env, [true, false]⟩).st = acc.st ∧
    (cycle_step cfg peer acc ⟨saved, env, [true, false]⟩).upgraded =
      acc.upgraded ∧
    (cycle_step cfg peer acc ⟨saved, env, [true, false]⟩).found =
      acc.found + 1 := by
  subst hacc1
  subst hacc2
  have hup : upgrade_prepaid env cfg.keep_original_details =
      (Except.ok (), [RemoteCall.upgradeStarGift true]) := by
    unfold upgrade_prepaid
    rw [henv]
  have hout : try_upgrade_one cfg env [true, false] saved peer acc.balance
      acc.st =
      ⟨Except.error PyErr.osError, acc.st,
        [AuditEv.consider key peer need true can_up],
        [RemoteCall.upgradeStarGift true]⟩ := by
    unfold try_upgrade_one
    rw [hn, hk, hup]
    simp [hdone, hdry, auditWriteOk]
  refine ⟨by rw [hout], by rw [hout], by rw [hout], ?_, ?_, ?_, ?_⟩
  all_goals simp [cycle_step, hout, cycle_balance_update]

/-- Witness for C8 at the concrete prepaid gift. -/
theorem audit_failure_aborts_item_witness :
    (try_upgrade_one cfgLive envAllOk [true, false] gPrepaid "p" 0
        []).result = Except.error PyErr.osError ∧
    (try_upgrade_one cfgLive envAllOk [true, false] gPrepaid "p" 0
        []).state = [] ∧
    (try_upgrade_one cfgLive envAllOk [true, false] gPrepaid "p" 0
        []).calls = [RemoteCall.upgradeStarGift true] ∧
    (cycle_step cfgLive "p" (accStart 0)
        ⟨gPrepaid, envAllOk, [true, false]⟩).balance =
      (accStart 0).balance ∧
    (cycle_step cfgLive "p" (accStart 0)
        ⟨gPrepaid, envAllOk, [true, false]⟩).st = (accStart 0).st ∧
    (cycle_step cfgLive "p" (accStart 0)
        ⟨gPrepaid, envAllOk, [true, false]⟩).upgraded =
      (accStart 0).upgraded ∧
    (cycle_step cfgLive "p" (accStart 0)
        ⟨gPrepaid, envAllOk, [true, false]⟩).found =
      (accStart 0).found + 1 :=
  audit_failure_aborts_item cfgLive envAllOk gPrepaid "p" 0 [] "user_msg:5"
    (InputSavedStarGift.user 5) "user_msg" 0 false (accStart 0) rfl rfl rfl
    rfl rfl rfl rfl

/-- Counterexample to C8 as stated: with the audit log unwritable after the
`consider` event, a prepaid gift whose remote upgrade call succeeded does
not complete as if the write had succeeded — the run aborts with the write
error and no dedup record is written. -/
theorem append_audit_not_swallowed_cex :
    (try_upgrade_one cfgLive envAllOk [true, false] gPrepaid "q" 0
        []).result = Except.error PyErr.osError ∧
    (try_upgrade_one cfgLive envAllOk [true, false] gPrepaid "q" 0
        []).state = [] ∧
    (try_upgrade_one cfgLive envAllOk [true, false] gPrepaid "q" 0
        []).calls = [RemoteCall.upgradeStarGift true] :=
  ⟨rfl, rfl, rfl⟩

/-- C9 (corrected): the source accepts any gift with at least one
addressing scheme — when both are present the slot-based scheme silently
wins — and key construction fails (`RuntimeError`) exactly when neither is
present, in which case the per-item handler of the cycle absorbs the error
and processing continues with the next item. -/
theorem addressing_scheme (s : SavedGift) (peer : String) :
    (gift_keys s peer = Option.none ↔
      (truthyId s.msg_id = false ∧ truthyId s.saved_id = false)) ∧
    (truthyId s.saved_id = true →
      gift_keys s peer = some ("chat_saved:" ++ toString (s.saved_id.getD 0),
        InputSavedStarGift.chat peer (s.saved_id.getD 0), "chat_saved")) ∧
    (∀ cfg env auditOk bal st nfc,
      gift_need_and_flags s = some nfc →
      truthyId s.msg_id = false → truthyId s.saved_id = false →
      try_upgrade_one cfg env auditOk s peer bal st =
        ⟨Except.error (PyErr.runtimeError "no msg_id/saved_id"), st, [],
          []⟩) ∧
    (∀ cfg env auditOk acc nfc,
      gift_need_and_flags s = some nfc →
      truthyId s.msg_id = false → truthyId s.saved_id = false →
      (cycle_step cfg peer acc ⟨s, env, auditOk⟩).st = acc.st ∧
      (cycle_step cfg peer acc ⟨s, env, auditOk⟩).balance = acc.balance ∧
      (cycle_step cfg peer acc ⟨s, env, auditOk⟩).found = acc.found + 1) := by
  have key_none : ∀ (hm : truthyId s.msg_id = false)
      (hs2 : truthyId s.saved_id = false),
      gift_keys s peer = Option.none := by
    intro hm hs2
    unfold gift_keys
    simp [hm, hs2]
  have try_err : ∀ (cfg : Config) (env : RemoteEnv) (auditOk : List Bool)
      (bal : Int) (st : List String) (nfc : Int × Bool × Bool),
      gift_need_and_flags s = some nfc →
      truthyId s.msg_id = false → truthyId s.saved_id = false →
      try_upgrade_one cfg env auditOk s peer bal st =
        ⟨Except.error (PyErr.runtimeError "no msg_id/saved_id"), st, [],
          []⟩ := by
    intro cfg env auditOk bal st nfc hn hm hs2
    obtain ⟨need, prepaid, can_up⟩ := nfc
    unfold try_upgrade_one
    rw [hn, key_none hm hs2]
  refine ⟨?_, ?_, try_err, ?_⟩
  · constructor
    · intro h
      by_cases h1 : truthyId s.msg_id = true <;>
        by_cases h2 : truthyId s.saved_id = true <;>
        simp_all [gift_keys]
    · rintro ⟨hm, hs2⟩
      exact key_none hm hs2
  · intro h
    simp [gift_keys, h]
  · intro cfg env auditOk acc nfc hn hm hs2
    have h3 := try_err cfg env auditOk acc.balance acc.st nfc hn hm hs2
    refine ⟨?_, ?_, ?_⟩ <;> simp [cycle_step, h3, cycle_balance_update]

/-- Witness for C9 at the keyless gift. -/
theorem addressing_scheme_witness :
    try_upgrade_one cfgLive envAllOk [] gNoKeys "p" 5 [] =
      ⟨Except.error (PyErr.runtimeError "no msg_id/saved_id"), [], [],
        []⟩ :=
  (addressing_scheme gNoKeys "p").2.2.1 cfgLive envAllOk [] 5 []
    (3, false, true) rfl rfl rfl

/-- Counterexample to C9 as stated: a gift carrying both addressing
schemes is not unprocessable — key construction succeeds with the
slot-based scheme and the engine processes the gift to a paid success. -/
theorem addressing_both_schemes_cex :
    gift_keys gBothKeys "p" =
      some ("chat_saved:4", InputSavedStarGift.chat "p" 4, "chat_saved") ∧
    (try_upgrade_one cfgLive envAllOk [] gBothKeys "p" 10 []).result =
      Except.ok (Outcome.paidOk 3) :=
  ⟨rfl, rfl⟩

end GiftUpgrader
